import Mathlib

/-!
Shallow embedding of `yuanxiaofan/go-toolkits` (file `src/sql/db.go`, which
holds the Go packages `sql` and `log`) and proofs of the specification
claims about it.

Conventions of the embedding:
* Go `error` values are modelled as `Option String` (`none` = nil error).
* A call into external code that may either return or panic is modelled by
  `GoResult α`: `ok a` is a normal return, `panicked v` is a panic whose
  recovered value prints as the string `v` (Go guarantees the recovered
  value of a run-time panic is non-nil, so a plain string suffices).
* External effects (the database driver, the file system, the auxiliary
  log sinks) are parameters of the Lean functions; the repository code is
  translated statement by statement.
-/

namespace Sql

/-- Result of running a piece of Go code that may panic. -/
inductive GoResult (α : Type) where
  | ok (a : α) : GoResult α
  | panicked (v : String) : GoResult α
deriving DecidableEq, Repr

/-- Embedding of `sql.Config` (db.go lines 33-41). Durations are naturals
(nanosecond counts); `0` means "unset", exactly as in Go. -/
structure Config where
  debug : Bool
  dialect : String
  url : String
  maxOpenConns : Int
  maxIdleConns : Int
  connMaxLifetime : Nat
  transTimeout : Nat
deriving DecidableEq, Repr

/-- Abstract handle returned by `gorm.Open`; its identity is all the claims
need. -/
structure GormDB where
  id : Nat
deriving DecidableEq, Repr

/-- Pool options applied by `Open`: `none` keeps the driver default, which
is what the Go code does when the configured value is `0`. -/
structure PoolSettings where
  maxOpen : Option Int
  maxIdle : Option Int
  connMaxLifetime : Option Nat
deriving DecidableEq, Repr

/-- Embedding of `sql.DataBase` (db.go lines 85-89): the gorm handle plus
the configuration it was opened with. The goqu handle shares the pool and
is not modelled separately. -/
structure DataBase where
  db : GormDB
  cfg : Config
  pool : PoolSettings
deriving DecidableEq, Repr

/-- Embedding of `sql.Open` (db.go lines 54-82). `driver` is the outcome of
the external call `gorm.Open(cfg.Dialect, cfg.URL)`. On driver failure the
driver error is returned unchanged; on success the pool options are applied
only when the configured value is non-zero. -/
def Open (driver : Except String GormDB) (cfg : Config) : Except String DataBase :=
  match driver with
  | .error e => .error e
  | .ok db =>
      .ok { db := db
            cfg := cfg
            pool :=
              { maxOpen := if cfg.maxOpenConns ≠ 0 then some cfg.maxOpenConns else none
                maxIdle := if cfg.maxIdleConns ≠ 0 then some cfg.maxIdleConns else none
                connMaxLifetime := if cfg.connMaxLifetime ≠ 0 then some cfg.connMaxLifetime else none } }

/-- Observable outcome of `sql.Inject` (db.go lines 45-51): the value of the
package variable `DefaultDB` after the call, and the value the function
panicked with, if it panicked (an unrecovered panic terminates the
process; `Inject` installs no recover). -/
structure InjectResult where
  defaultDB : Option DataBase
  panicVal : Option String
deriving DecidableEq, Repr

/-- Embedding of `sql.Inject` (db.go lines 45-51):
`DefaultDB, err = Open(cfg); if err != nil { panic(err) }`.
Note the multi-assignment writes `DefaultDB` (to nil on failure) before the
error check. -/
def Inject (driver : Except String GormDB) (cfg : Config) : InjectResult :=
  match Open driver cfg with
  | .error e => { defaultDB := none, panicVal := some e }
  | .ok db => { defaultDB := some db, panicVal := none }

/-- Which context `BeginTx` receives in `TransactionCtx` (db.go lines
124-130): either a context derived from the caller context with
`context.WithTimeout`, or the caller context unchanged. -/
inductive BeginCtx where
  | derived (timeout : Nat) : BeginCtx
  | caller : BeginCtx
deriving DecidableEq, Repr

/-- Environment of one `TransactionCtx` run: whether the caller context
already carries a deadline, and the outcomes of the external calls the body
makes (the unit of work `f`, `tx.Rollback`, `tx.Commit`). `fOutcome` and
`commitOutcome` carry the returned Go error on a normal return
(`tx.Commit().Error` for the commit); the result of `tx.Rollback` is
discarded by the source, so a normal rollback return carries `Unit`. -/
structure TxEnv where
  hasDeadline : Bool
  fOutcome : GoResult (Option String)
  rollbackOutcome : GoResult Unit
  commitOutcome : GoResult (Option String)
deriving DecidableEq, Repr

/-- The error built by the recover branch of `TransactionCtx` (db.go line
136): `errors.Errorf("panic[%s] \nret[%v]", string(buf[:n]), ret)`, with
`stack` the captured stack-trace text and `v` the recovered value. -/
def panicErrMsg (stack v : String) : String :=
  "panic[" ++ stack ++ "] \nret[" ++ v ++ "]"

/-- Observable outcome of one `TransactionCtx` run: the context handed to
`BeginTx`, the returned error, how many times `tx.Rollback` and `tx.Commit`
were invoked, and whether a panic escaped to the caller. -/
structure TxResult where
  beganWith : BeginCtx
  err : Option String
  rollbacks : Nat
  commits : Nat
  escapedPanic : Bool
deriving DecidableEq, Repr

/-- Outcome of the function body downstream of the deferred recover
(db.go lines 140-147): either a normal completion carrying the value the
named result `err` holds at that point, or a panic that is unwinding. -/
def txBody (env : TxEnv) : GoResult (Option String) :=
  match env.fOutcome with
  | .panicked v => .panicked v
  | .ok (some e) =>
      match env.rollbackOutcome with
      | .panicked v => .panicked v
      | .ok _ => .ok (some e)
  | .ok none =>
      match env.commitOutcome with
      | .panicked v => .panicked v
      | .ok ce => .ok ce

/-- The deferred recover of `TransactionCtx` (db.go lines 132-138): it is
installed after `BeginTx` and before the unit of work runs, so it observes
any panic of the body; a recovered panic overwrites the named result with
the formatted error, and nothing re-panics. Returns the final error and
whether a panic escapes. -/
def recoverWrap (stack : String) (body : GoResult (Option String)) :
    Option String × Bool :=
  match body with
  | .ok e => (e, false)
  | .panicked v => (some (panicErrMsg stack v), false)

/-- How many times the body reaches the `tx.Rollback()` call (db.go line
142): exactly when `f` returns a non-nil error. -/
def rollbackCount (env : TxEnv) : Nat :=
  match env.fOutcome with
  | .ok (some _) => 1
  | _ => 0

/-- How many times the body reaches the `tx.Commit()` call (db.go line
146): exactly when `f` returns nil. -/
def commitCount (env : TxEnv) : Nat :=
  match env.fOutcome with
  | .ok none => 1
  | _ => 0

/-- Embedding of `sql.TransactionCtx` (db.go lines 122-148) for a database
whose configured transaction timeout is `transTimeout`. `stack` is the text
`runtime.Stack` would capture in the recover branch. -/
def TransactionCtx (transTimeout : Nat) (stack : String) (env : TxEnv) :
    TxResult :=
  let bc :=
    if transTimeout ≠ 0 && !env.hasDeadline then BeginCtx.derived transTimeout
    else BeginCtx.caller
  let r := recoverWrap stack (txBody env)
  { beganWith := bc
    err := r.1
    rollbacks := rollbackCount env
    commits := commitCount env
    escapedPanic := r.2 }

/-- String containment: `s` occurs inside `m` as a contiguous substring. -/
def containsStr (m s : String) : Prop :=
  ∃ pre post, m = pre ++ (s ++ post)

end Sql

/-- Decidable equality for `Except`, so closed facts about fallible
operations can be settled by `decide`. -/
instance {ε α : Type} [DecidableEq ε] [DecidableEq α] :
    DecidableEq (Except ε α) := fun x y =>
  match x, y with
  | .error e, .error f =>
      if h : e = f then isTrue (h ▸ rfl)
      else isFalse (fun hh => h (Except.error.inj hh))
  | .error _, .ok _ => isFalse (fun hh => Except.noConfusion hh)
  | .ok _, .error _ => isFalse (fun hh => Except.noConfusion hh)
  | .ok a, .ok b =>
      if h : a = b then isTrue (h ▸ rfl)
      else isFalse (fun hh => h (Except.ok.inj hh))

namespace Log

/-- Embedding of `log.Config` (db.go lines 167-185). The `Fields`, `Level`
and `Prefix` fields and the webhook target details are irrelevant to the
claims (`Level` parsing via `ParseLevel` cannot fail, and `New` reads the
webhook list only to build one core per entry), so webhooks are kept as a
count and `Kafka` as presence of a configuration. -/
structure Config where
  path : String
  maxSize : Int
  maxBackups : Int
  maxAge : Int
  disableStdout : Bool
  compress : Bool
  format : String
  forbitTime : Bool
  forbitLevel : Bool
  caller : Bool
  kafka : Bool
  webHookCount : Nat
  rotateDay : Int
deriving DecidableEq, Repr

/-- External world of `log.New`: the file system and the fallible sink
constructors. `stat path` is `none` when `os.Stat` succeeds, and
`some b` when it fails with `b = os.IsNotExist(err)`. `mkdirAll` returns
the error of `os.MkdirAll`, `abs` the outcome of `filepath.Abs`,
`rotatelogsNew` the outcome of `rotatelogs.New` at the resolved file name,
and `kafkaNew` the outcome of `NewKafkaCore`. -/
structure OS where
  stat : String → Option Bool
  mkdirAll : String → Option String
  abs : String → Except String String
  rotatelogsNew : String → Except String Unit
  kafkaNew : Except String Unit

/-- Embedding of `strings.ToLower` on one character, for the ASCII range
the claims exercise (Go lowers full Unicode; the format names compared
against are ASCII). -/
def charToLower (c : Char) : Char :=
  if 'A' ≤ c ∧ c ≤ 'Z' then Char.ofNat (c.toNat + 32) else c

/-- Embedding of `strings.ToLower` (ASCII range). -/
def stringsToLower (s : String) : String :=
  String.mk (s.data.map charToLower)

/-- Embedding of `strings.Join`: the elements concatenated with the
separator between consecutive ones. -/
def stringsJoin (sep : String) : List String → String
  | [] => ""
  | a :: rest => rest.foldl (fun acc x => acc ++ sep ++ x) a

/-- Embedding of `strings.Split(·, "/")` on the character list of the
argument: Go returns the (always non-empty) list of fields between
separators, with empty fields preserved. -/
def splitOnSlash : List Char → List (List Char)
  | [] => [[]]
  | c :: rest =>
      if c = '/' then [] :: splitOnSlash rest
      else
        match splitOnSlash rest with
        | [] => [[c]]
        | h :: t => (c :: h) :: t

/-- Embedding of `log.getDir` (db.go lines 383-389):
`strings.Join(strings.Split(path, "/")[:len-1], "/")`. -/
def getDir (path : String) : String :=
  stringsJoin "/" (((splitOnSlash path.data).map String.mk).dropLast)

/-- Embedding of `log.isPathNotExist` (db.go lines 374-381): true exactly
when `os.Stat` fails with a not-exist error. -/
def isPathNotExist (os : OS) (path : String) : Bool :=
  match os.stat path with
  | some b => b
  | none => false

/-- Embedding of `filepath.IsAbs` on a POSIX system: the path starts with
a slash. -/
def filepathIsAbs (path : String) : Bool :=
  match path.data with
  | '/' :: _ => true
  | _ => false

/-- The three encoders `New` can select (db.go lines 325-332). -/
inductive EncoderKind where
  | json : EncoderKind
  | fix : EncoderKind
  | console : EncoderKind
deriving DecidableEq, Repr

/-- Embedding of the encoder switch of `New` (db.go lines 325-332):
`switch strings.ToLower(config.Format)`. -/
def selectEncoder (format : String) : EncoderKind :=
  let f := stringsToLower format
  if f = "json" then EncoderKind.json
  else if f = "fix" then EncoderKind.fix
  else EncoderKind.console

/-- Embedding of `log.Logger` as built by `New` (db.go lines 334-360): the
selected encoder, the possibly-blanked field keys, and which sinks/cores
the fan-out holds. `dailySink` is true whenever the rotate-day branch ran,
because db.go line 293 appends the rotatelogs hook without checking the
constructor error. -/
structure Logger where
  encoder : EncoderKind
  timeKey : String
  levelKey : String
  fileSink : Bool
  dailySink : Bool
  stdoutSink : Bool
  webHookCores : Nat
  kafkaCore : Bool
  withCaller : Bool
  config : Config
deriving DecidableEq, Repr

/-- The directory block of `New` (db.go lines 259-264): when the directory
of the path does not exist, `os.MkdirAll` is run and its error aborts. -/
def mkdirStep (os : OS) (config : Config) : Except String Unit :=
  if isPathNotExist os (getDir config.path) then
    match os.mkdirAll (getDir config.path) with
    | some e => .error e
    | none => .ok ()
  else .ok ()

/-- The rotation-path resolution of `New` (db.go lines 278-285):
`fn := config.Path`; when it is not absolute, `filepath.Abs` resolves it
and its error aborts. -/
def rotatePathStep (os : OS) (config : Config) : Except String String :=
  if filepathIsAbs config.path then .ok config.path
  else os.abs config.path

/-- The daily-rotation block of `New` (db.go lines 277-294). Note the
source assigns the error of `rotatelogs.New` to the shared `err` variable
but never checks it before appending the hook, so the constructor outcome
is discarded here. -/
def rotateStep (os : OS) (config : Config) : Except String Unit :=
  match rotatePathStep os config with
  | .error e => .error e
  | .ok fn =>
      let _ := os.rotatelogsNew fn
      .ok ()

/-- The whole `config.Path != ""` block of `New` (db.go lines 258-295):
directory creation, then the lumberjack sink (which cannot fail), then the
daily-rotation block when `RotateDay` is non-zero. -/
def pathStep (os : OS) (config : Config) : Except String Unit :=
  if config.path = "" then .ok ()
  else
    match mkdirStep os config with
    | .error e => .error e
    | .ok _ =>
        if config.rotateDay ≠ 0 then rotateStep os config else .ok ()

/-- The logger value `New` returns on success (db.go lines 266-360):
encoder selection, key blanking, and the sinks and cores of the fan-out. -/
def buildLogger (config : Config) : Logger :=
  { encoder := selectEncoder config.format
    timeKey := if config.forbitTime then "" else "time"
    levelKey := if config.forbitLevel then "" else "level"
    fileSink := config.path != "" && config.maxSize != 0
    dailySink := config.path != "" && config.rotateDay != 0
    stdoutSink := !config.disableStdout
    webHookCores := config.webHookCount
    kafkaCore := config.kafka
    withCaller := config.caller
    config := config }

/-- Embedding of `log.New` (db.go lines 240-361). The level block (lines
251-256) cannot fail: `ParseLevel` returns no error, so the guarded check
there is dead code. On any returned error the logger result is nil, which
the `Except` pairing captures. -/
def New (os : OS) (config : Config) : Except String Logger :=
  match pathStep os config with
  | .error e => .error e
  | .ok _ =>
      match (if config.kafka then os.kafkaNew else .ok ()) with
      | .error e => .error e
      | .ok _ => .ok (buildLogger config)

/-- The package-level variables of the `log` package (db.go lines
198-202): the raw logger and the sugared logger. A sugared logger is
modelled by the logger it wraps. -/
structure LogState where
  logger : Option Logger
  sugger : Option Logger
deriving DecidableEq, Repr

/-- Embedding of `log.Init` (db.go lines 364-372):
`logger, err = New(config)` overwrites the package logger with the first
return of `New` (nil on failure) before the error check; `sugger` is
reassigned only on success. Returns the new state and the returned
error. -/
def Init (os : OS) (config : Config) (st : LogState) :
    LogState × Option String :=
  match New os config with
  | .error e => ({ st with logger := none }, some e)
  | .ok l => ({ logger := some l, sugger := some l }, none)

/-- A file system and sink world in which every call succeeds. -/
def osAllOk : OS :=
  { stat := fun _ => none
    mkdirAll := fun _ => none
    abs := fun p => .ok ("/cwd/" ++ p)
    rotatelogsNew := fun _ => .ok ()
    kafkaNew := .ok () }

/-- A world in which only `rotatelogs.New` fails. -/
def osRotateFail : OS :=
  { stat := fun _ => none
    mkdirAll := fun _ => none
    abs := fun p => .ok ("/cwd/" ++ p)
    rotatelogsNew := fun _ => .error "rotatelogs failure"
    kafkaNew := .ok () }

/-- A world in which the log directory is missing and `os.MkdirAll`
fails. -/
def osMkdirFail : OS :=
  { stat := fun _ => some true
    mkdirAll := fun _ => some "mkdir failure"
    abs := fun p => .ok ("/cwd/" ++ p)
    rotatelogsNew := fun _ => .ok ()
    kafkaNew := .ok () }

/-- A configuration with an absolute file path and daily rotation. -/
def cfgRotateDaily : Config :=
  { path := "/tmp/x/app.log"
    maxSize := 10
    maxBackups := 0
    maxAge := 0
    disableStdout := true
    compress := false
    format := "json"
    forbitTime := false
    forbitLevel := false
    caller := false
    kafka := false
    webHookCount := 0
    rotateDay := 1 }

/-- A configuration whose format name is upper-case JSON and which touches
no file system. -/
def cfgUpperJSON : Config :=
  { path := ""
    maxSize := 0
    maxBackups := 0
    maxAge := 0
    disableStdout := false
    compress := false
    format := "JSON"
    forbitTime := false
    forbitLevel := false
    caller := false
    kafka := false
    webHookCount := 0
    rotateDay := 0 }

/-- A configuration whose path is a bare file name without any slash. -/
def cfgBareName : Config :=
  { path := "app.log"
    maxSize := 10
    maxBackups := 0
    maxAge := 0
    disableStdout := false
    compress := false
    format := ""
    forbitTime := false
    forbitLevel := false
    caller := false
    kafka := false
    webHookCount := 0
    rotateDay := 0 }

end Log

namespace Sql

theorem panicErrMsg_contains_val (stack v : String) :
    containsStr (panicErrMsg stack v) v :=
  ⟨"panic[" ++ stack ++ "] \nret[", "]", by
    simp [panicErrMsg, String.append_assoc]⟩

theorem panicErrMsg_contains_stack (stack v : String) :
    containsStr (panicErrMsg stack v) stack :=
  ⟨"panic[", "] \nret[" ++ v ++ "]", by
    simp [panicErrMsg, String.append_assoc]⟩

/-- C1: if the unit of work panics while `TransactionCtx` executes it, the
returned error is non-nil, its message holds the recovered panic value and
the captured stack trace, and the panic does not escape to the caller of
`TransactionCtx`. -/
theorem transactionCtx_recovers_unit_of_work_panic
    (tt : Nat) (stack : String) (env : TxEnv) (v : String)
    (hf : env.fOutcome = .panicked v) :
    ∃ msg, (TransactionCtx tt stack env).err = some msg ∧
      containsStr msg v ∧ containsStr msg stack ∧
      (TransactionCtx tt stack env).escapedPanic = false := by
  refine ⟨panicErrMsg stack v, ?_, panicErrMsg_contains_val stack v,
    panicErrMsg_contains_stack stack v, ?_⟩ <;>
    simp [TransactionCtx, txBody, recoverWrap, hf]

/-- Witness for C1 at a concrete environment. -/
theorem transactionCtx_recovers_unit_of_work_panic_witness :
    ∃ msg,
      (TransactionCtx 7 "trace" ⟨true, .panicked "pv", .ok (), .ok none⟩).err
          = some msg ∧
      containsStr msg "pv" ∧ containsStr msg "trace" ∧
      (TransactionCtx 7 "trace" ⟨true, .panicked "pv", .ok (), .ok none⟩).escapedPanic
          = false :=
  transactionCtx_recovers_unit_of_work_panic 7 "trace"
    ⟨true, .panicked "pv", .ok (), .ok none⟩ "pv" rfl

/-- C2: if the unit of work returns a non-nil error, `TransactionCtx`
invokes `tx.Rollback` exactly once, never invokes `tx.Commit`, and (the
rollback call returning normally) returns exactly the error of the unit of
work. -/
theorem transactionCtx_rollback_on_unit_of_work_error
    (tt : Nat) (stack : String) (env : TxEnv) (e : String)
    (hf : env.fOutcome = .ok (some e)) :
    (TransactionCtx tt stack env).rollbacks = 1 ∧
    (TransactionCtx tt stack env).commits = 0 ∧
    (env.rollbackOutcome = .ok () →
      (TransactionCtx tt stack env).err = some e) := by
  refine ⟨?_, ?_, fun hr => ?_⟩
  · simp [TransactionCtx, rollbackCount, hf]
  · simp [TransactionCtx, commitCount, hf]
  · simp [TransactionCtx, txBody, recoverWrap, hf, hr]

/-- Witness for C2 at a concrete environment. -/
theorem transactionCtx_rollback_on_unit_of_work_error_witness :
    (TransactionCtx 0 "s" ⟨true, .ok (some "uow"), .ok (), .ok none⟩).rollbacks
        = 1 ∧
    (TransactionCtx 0 "s" ⟨true, .ok (some "uow"), .ok (), .ok none⟩).commits
        = 0 ∧
    ((⟨true, .ok (some "uow"), .ok (), .ok none⟩ : TxEnv).rollbackOutcome
          = .ok () →
      (TransactionCtx 0 "s" ⟨true, .ok (some "uow"), .ok (), .ok none⟩).err
          = some "uow") :=
  transactionCtx_rollback_on_unit_of_work_error 0 "s"
    ⟨true, .ok (some "uow"), .ok (), .ok none⟩ "uow" rfl

/-- C3: if the unit of work returns nil, `TransactionCtx` invokes
`tx.Commit` exactly once, never invokes `tx.Rollback`, and (the commit call
returning normally) returns the error of the commit, nil when the commit
succeeds. -/
theorem transactionCtx_commit_on_unit_of_work_success
    (tt : Nat) (stack : String) (env : TxEnv)
    (hf : env.fOutcome = .ok none) :
    (TransactionCtx tt stack env).commits = 1 ∧
    (TransactionCtx tt stack env).rollbacks = 0 ∧
    (∀ ce, env.commitOutcome = .ok ce →
      (TransactionCtx tt stack env).err = ce) := by
  refine ⟨?_, ?_, fun ce hc => ?_⟩
  · simp [TransactionCtx, commitCount, hf]
  · simp [TransactionCtx, rollbackCount, hf]
  · simp [TransactionCtx, txBody, recoverWrap, hf, hc]

/-- Witness for C3 at a concrete environment. -/
theorem transactionCtx_commit_on_unit_of_work_success_witness :
    (TransactionCtx 0 "s" ⟨true, .ok none, .ok (), .ok none⟩).commits = 1 ∧
    (TransactionCtx 0 "s" ⟨true, .ok none, .ok (), .ok none⟩).rollbacks = 0 ∧
    (∀ ce,
      (⟨true, .ok none, .ok (), .ok none⟩ : TxEnv).commitOutcome = .ok ce →
      (TransactionCtx 0 "s" ⟨true, .ok none, .ok (), .ok none⟩).err = ce) :=
  transactionCtx_commit_on_unit_of_work_success 0 "s"
    ⟨true, .ok none, .ok (), .ok none⟩ rfl

/-- C4: `BeginTx` receives a timeout-derived context exactly when the
caller context has no deadline and the configured transaction timeout is
non-zero, the derived timeout being the configured one; in every other
case it receives the caller context unchanged. -/
theorem transactionCtx_timeout_derivation
    (tt : Nat) (stack : String) (env : TxEnv) :
    (∀ t, (TransactionCtx tt stack env).beganWith = .derived t ↔
        (t = tt ∧ env.hasDeadline = false ∧ tt ≠ 0)) ∧
    ((TransactionCtx tt stack env).beganWith = .caller ↔
        (env.hasDeadline = true ∨ tt = 0)) := by
  cases h : env.hasDeadline <;> by_cases h0 : tt = 0 <;>
    simp [TransactionCtx, h, h0, eq_comm]

/-- Witness for C4 at a concrete environment. -/
theorem transactionCtx_timeout_derivation_witness :
    (∀ t,
      (TransactionCtx 9 "s" ⟨false, .ok none, .ok (), .ok none⟩).beganWith
          = .derived t ↔
        (t = 9 ∧ (⟨false, .ok none, .ok (), .ok none⟩ : TxEnv).hasDeadline
            = false ∧ (9 : Nat) ≠ 0)) ∧
    ((TransactionCtx 9 "s" ⟨false, .ok none, .ok (), .ok none⟩).beganWith
          = .caller ↔
        ((⟨false, .ok none, .ok (), .ok none⟩ : TxEnv).hasDeadline = true ∨
          (9 : Nat) = 0)) :=
  transactionCtx_timeout_derivation 9 "s" ⟨false, .ok none, .ok (), .ok none⟩

/-- C7: `Inject` calls `Open` on the configuration; if `Open` fails it
panics with the error (terminating the process, never returning normally),
and if `Open` succeeds it returns normally having set the package-level
`DefaultDB` to the opened handle. -/
theorem inject_fatal_on_open_failure
    (driver : Except String GormDB) (cfg : Config) :
    (∀ e, Open driver cfg = .error e →
        (Inject driver cfg).panicVal = some e) ∧
    (∀ db, Open driver cfg = .ok db →
        (Inject driver cfg).panicVal = none ∧
        (Inject driver cfg).defaultDB = some db) := by
  refine ⟨fun e he => ?_, fun db hdb => ?_⟩
  · simp [Inject, he]
  · simp [Inject, hdb]

/-- Witness for C7 at concrete driver outcomes. -/
theorem inject_fatal_on_open_failure_witness :
    (∀ e, Open (.error "down") ⟨false, "mysql", "u", 0, 0, 0, 0⟩ = .error e →
        (Inject (.error "down") ⟨false, "mysql", "u", 0, 0, 0, 0⟩).panicVal
            = some e) ∧
    (∀ db, Open (.error "down") ⟨false, "mysql", "u", 0, 0, 0, 0⟩ = .ok db →
        (Inject (.error "down") ⟨false, "mysql", "u", 0, 0, 0, 0⟩).panicVal
            = none ∧
        (Inject (.error "down") ⟨false, "mysql", "u", 0, 0, 0, 0⟩).defaultDB
            = some db) :=
  inject_fatal_on_open_failure (.error "down") ⟨false, "mysql", "u", 0, 0, 0, 0⟩

/-- C8: the deferred recover is installed before the unit of work runs and
stays active through the rollback and commit calls, so a panic raised by
`tx.Rollback` or by `tx.Commit` is also converted into the formatted
error, and no panic raised after the transaction begins ever escapes
`TransactionCtx`. -/
theorem transactionCtx_recover_spans_rollback_and_commit
    (tt : Nat) (stack : String) (env : TxEnv) :
    (TransactionCtx tt stack env).escapedPanic = false ∧
    (∀ e v, env.fOutcome = .ok (some e) →
        env.rollbackOutcome = .panicked v →
        (TransactionCtx tt stack env).err = some (panicErrMsg stack v)) ∧
    (∀ v, env.fOutcome = .ok none → env.commitOutcome = .panicked v →
        (TransactionCtx tt stack env).err = some (panicErrMsg stack v)) := by
  refine ⟨?_, fun e v hf hr => ?_, fun v hf hc => ?_⟩
  · cases hf : env.fOutcome with
    | panicked v => simp [TransactionCtx, txBody, recoverWrap, hf]
    | ok oe =>
        cases oe <;>
          simp only [TransactionCtx, txBody, recoverWrap, hf] <;>
          first
          | (cases hc : env.commitOutcome <;> simp [hc])
          | (cases hr : env.rollbackOutcome <;> simp [hr])
  · simp [TransactionCtx, txBody, recoverWrap, hf, hr]
  · simp [TransactionCtx, txBody, recoverWrap, hf, hc]

/-- Witness for C8 at a concrete environment whose rollback call panics. -/
theorem transactionCtx_recover_spans_rollback_and_commit_witness :
    (TransactionCtx 0 "s" ⟨true, .ok (some "e"), .panicked "rb", .ok none⟩).escapedPanic
        = false ∧
    (∀ e v,
      (⟨true, .ok (some "e"), .panicked "rb", .ok none⟩ : TxEnv).fOutcome
          = .ok (some e) →
      (⟨true, .ok (some "e"), .panicked "rb", .ok none⟩ : TxEnv).rollbackOutcome
          = .panicked v →
      (TransactionCtx 0 "s" ⟨true, .ok (some "e"), .panicked "rb", .ok none⟩).err
          = some (panicErrMsg "s" v)) ∧
    (∀ v,
      (⟨true, .ok (some "e"), .panicked "rb", .ok none⟩ : TxEnv).fOutcome
          = .ok none →
      (⟨true, .ok (some "e"), .panicked "rb", .ok none⟩ : TxEnv).commitOutcome
          = .panicked v →
      (TransactionCtx 0 "s" ⟨true, .ok (some "e"), .panicked "rb", .ok none⟩).err
          = some (panicErrMsg "s" v)) :=
  transactionCtx_recover_spans_rollback_and_commit 0 "s"
    ⟨true, .ok (some "e"), .panicked "rb", .ok none⟩

end Sql

namespace Log

theorem splitOnSlash_no_slash (l : List Char) (h : ∀ c ∈ l, c ≠ '/') :
    splitOnSlash l = [l] := by
  induction l with
  | nil => rfl
  | cons c rest ih =>
      have hc : c ≠ '/' := h c (List.mem_cons_self c rest)
      have hr : splitOnSlash rest = [rest] :=
        ih (fun d hd => h d (List.mem_cons_of_mem c hd))
      simp [splitOnSlash, hc, hr]

theorem new_ok_eq (os : OS) (config : Config) (l : Logger)
    (h : New os config = .ok l) : l = buildLogger config := by
  cases hp : pathStep os config with
  | error e => simp [New, hp] at h
  | ok u =>
      cases hk : (if config.kafka then os.kafkaNew else Except.ok ()) with
      | error e => simp [New, hp, hk] at h
      | ok u2 =>
          simp [New, hp, hk] at h
          exact h.symm

theorem rotateStep_eq_error_iff (os : OS) (config : Config) (e : String) :
    rotateStep os config = .error e ↔
      rotatePathStep os config = .error e := by
  cases hr : rotatePathStep os config <;> simp [rotateStep, hr]

theorem pathStep_eq_error_iff (os : OS) (config : Config) (e : String) :
    pathStep os config = .error e ↔
      (config.path ≠ "" ∧
        (mkdirStep os config = .error e ∨
          (mkdirStep os config = .ok () ∧ config.rotateDay ≠ 0 ∧
            rotatePathStep os config = .error e))) := by
  by_cases h0 : config.path = ""
  · simp [pathStep, h0]
  · cases hm : mkdirStep os config with
    | error e2 => simp [pathStep, h0, hm, eq_comm]
    | ok u =>
        cases u
        by_cases hr : config.rotateDay = 0
        · simp [pathStep, h0, hm, hr]
        · simp [pathStep, h0, hm, hr, rotateStep_eq_error_iff]

theorem new_eq_error_iff (os : OS) (config : Config) (e : String) :
    New os config = .error e ↔
      (pathStep os config = .error e ∨
        (pathStep os config = .ok () ∧ config.kafka = true ∧
          os.kafkaNew = .error e)) := by
  cases hp : pathStep os config with
  | error e2 => simp [New, hp]
  | ok u =>
      cases u
      by_cases hk : config.kafka
      · cases hkn : os.kafkaNew <;> simp [New, hp, hk, hkn]
      · simp [New, hp, hk]

end Log

namespace Log

/-- C5 counterexample: with every other step succeeding, the daily-rotation
sink constructor fails at the very file name `New` hands it, yet `New`
returns a logger and a nil error, so a failing construction step is
silently ignored. -/
theorem new_ignores_rotatelogs_failure :
    cfgRotateDaily.path ≠ "" ∧ cfgRotateDaily.rotateDay ≠ 0 ∧
    osRotateFail.rotatelogsNew cfgRotateDaily.path
        = .error "rotatelogs failure" ∧
    New osRotateFail cfgRotateDaily = .ok (buildLogger cfgRotateDaily) := by
  decide

/-- C5 (amended): `New` returns a non-nil error (and then no logger) for
exactly the checked construction failures: directory creation,
rotation-path resolution, and message-queue sink construction; a failure
of the daily-rotation sink constructor itself does not abort. -/
theorem new_construction_failure_characterization
    (os : OS) (config : Config) :
    (∃ e, New os config = .error e) ↔
      ((config.path ≠ "" ∧
          ((∃ e, mkdirStep os config = .error e) ∨
            (mkdirStep os config = .ok () ∧ config.rotateDay ≠ 0 ∧
              ∃ e, rotatePathStep os config = .error e))) ∨
        (pathStep os config = .ok () ∧ config.kafka = true ∧
          ∃ e, os.kafkaNew = .error e)) := by
  constructor
  · rintro ⟨e, he⟩
    rcases (new_eq_error_iff os config e).mp he with hpe | ⟨hok, hk, hkn⟩
    · have h2 := (pathStep_eq_error_iff os config e).mp hpe
      exact .inl ⟨h2.1, h2.2.elim (fun h => .inl ⟨e, h⟩)
        (fun h => .inr ⟨h.1, h.2.1, e, h.2.2⟩)⟩
    · exact .inr ⟨hok, hk, e, hkn⟩
  · rintro (⟨hne, ⟨e, hm⟩ | ⟨hmok, hr, e, hrp⟩⟩ | ⟨hok, hk, e, hkn⟩)
    · exact ⟨e, (new_eq_error_iff os config e).mpr
        (.inl ((pathStep_eq_error_iff os config e).mpr ⟨hne, .inl hm⟩))⟩
    · exact ⟨e, (new_eq_error_iff os config e).mpr
        (.inl ((pathStep_eq_error_iff os config e).mpr
          ⟨hne, .inr ⟨hmok, hr, hrp⟩⟩))⟩
    · exact ⟨e, (new_eq_error_iff os config e).mpr (.inr ⟨hok, hk, hkn⟩)⟩

/-- Witness for C5 at a concrete world whose directory creation fails. -/
theorem new_construction_failure_characterization_witness :
    (∃ e, New osMkdirFail cfgRotateDaily = .error e) ↔
      ((cfgRotateDaily.path ≠ "" ∧
          ((∃ e, mkdirStep osMkdirFail cfgRotateDaily = .error e) ∨
            (mkdirStep osMkdirFail cfgRotateDaily = .ok () ∧
              cfgRotateDaily.rotateDay ≠ 0 ∧
              ∃ e, rotatePathStep osMkdirFail cfgRotateDaily = .error e))) ∨
        (pathStep osMkdirFail cfgRotateDaily = .ok () ∧
          cfgRotateDaily.kafka = true ∧
          ∃ e, osMkdirFail.kafkaNew = .error e)) :=
  new_construction_failure_characterization osMkdirFail cfgRotateDaily

/-- C6: the encoder `New` stores in the logger is chosen from the
lower-cased format name: `json` selects the JSON encoder, `fix` the
fixed-width encoder, and every other lower-cased form, the empty string
included, the console encoder. -/
theorem new_selects_encoder_case_insensitively
    (os : OS) (config : Config) (l : Logger)
    (h : New os config = .ok l) :
    (stringsToLower config.format = "json" → l.encoder = .json) ∧
    (stringsToLower config.format = "fix" → l.encoder = .fix) ∧
    (stringsToLower config.format ≠ "json" →
      stringsToLower config.format ≠ "fix" → l.encoder = .console) := by
  have hl := new_ok_eq os config l h
  subst hl
  refine ⟨fun hj => ?_, fun hf => ?_, fun hnj hnf => ?_⟩
  · simp [buildLogger, selectEncoder, hj]
  · simp [buildLogger, selectEncoder, hf]
  · simp [buildLogger, selectEncoder, hnj, hnf]

/-- Witness for C6 at a configuration whose format name is `JSON`. -/
theorem new_selects_encoder_case_insensitively_witness :
    (stringsToLower cfgUpperJSON.format = "json" →
      (buildLogger cfgUpperJSON).encoder = .json) ∧
    (stringsToLower cfgUpperJSON.format = "fix" →
      (buildLogger cfgUpperJSON).encoder = .fix) ∧
    (stringsToLower cfgUpperJSON.format ≠ "json" →
      stringsToLower cfgUpperJSON.format ≠ "fix" →
      (buildLogger cfgUpperJSON).encoder = .console) :=
  new_selects_encoder_case_insensitively osAllOk cfgUpperJSON
    (buildLogger cfgUpperJSON) (by decide)

/-- C9: when `New` fails inside `Init`, the package logger variable has
already been overwritten with nil while the sugared logger variable keeps
its previous value, so a failed `Init` leaves the two globals
inconsistent rather than unchanged. -/
theorem init_failure_leaves_globals_inconsistent
    (os : OS) (config : Config) (st : LogState) (e : String)
    (h : New os config = .error e) :
    (Init os config st).2 = some e ∧
    (Init os config st).1.logger = none ∧
    (Init os config st).1.sugger = st.sugger := by
  simp [Init, h]

/-- Witness for C9 at a concrete failing configuration and a state holding
a previous logger. -/
theorem init_failure_leaves_globals_inconsistent_witness :
    (Init osMkdirFail cfgRotateDaily
        ⟨some (buildLogger cfgUpperJSON), some (buildLogger cfgUpperJSON)⟩).2
      = some "mkdir failure" ∧
    (Init osMkdirFail cfgRotateDaily
        ⟨some (buildLogger cfgUpperJSON), some (buildLogger cfgUpperJSON)⟩).1.logger
      = none ∧
    (Init osMkdirFail cfgRotateDaily
        ⟨some (buildLogger cfgUpperJSON), some (buildLogger cfgUpperJSON)⟩).1.sugger
      = (⟨some (buildLogger cfgUpperJSON),
          some (buildLogger cfgUpperJSON)⟩ : LogState).sugger :=
  init_failure_leaves_globals_inconsistent osMkdirFail cfgRotateDaily
    ⟨some (buildLogger cfgUpperJSON), some (buildLogger cfgUpperJSON)⟩
    "mkdir failure" (by decide)

/-- C10: for a non-empty path without any slash, `getDir` yields the empty
string, and `New` then runs its existence check and `os.MkdirAll` on the
empty path and aborts with the `MkdirAll` error (`os.Stat` and
`os.MkdirAll` both fail on the empty path, the former with a not-exist
error). -/
theorem bare_filename_aborts_new
    (os : OS) (config : Config) (e : String)
    (hpath : config.path ≠ "")
    (hnoslash : ∀ c ∈ config.path.data, c ≠ '/')
    (hstat : os.stat "" = some true)
    (hmkdir : os.mkdirAll "" = some e) :
    getDir config.path = "" ∧ New os config = .error e := by
  have hdir : getDir config.path = "" := by
    have hs := splitOnSlash_no_slash config.path.data hnoslash
    simp [getDir, hs, stringsJoin]
  refine ⟨hdir, ?_⟩
  have hm : mkdirStep os config = .error e := by
    simp [mkdirStep, hdir, isPathNotExist, hstat, hmkdir]
  have hp : pathStep os config = .error e := by
    simp [pathStep, hpath, hm]
  simp [New, hp]

/-- Witness for C10 at the bare file name `app.log`. -/
theorem bare_filename_aborts_new_witness :
    getDir cfgBareName.path = "" ∧
    New osMkdirFail cfgBareName = .error "mkdir failure" :=
  bare_filename_aborts_new osMkdirFail cfgBareName "mkdir failure"
    (by decide) (by decide) rfl rfl

end Log
